import Mathlib

/-!
Verification of the host-side pipeline of `vk_mini_path_tracer/_edit/main.cpp`.

The host program is modelled as a pure function from its inputs (the parsed
OBJ reader result and an opaque device environment supplying device addresses
and handles) to the sequence of externally visible actions it performs:
buffer creations, assertion checks, geometry uploads, acceleration-structure
builds, descriptor-set operations, recorded commands, queue submissions with
blocking waits, and the final readback.  Machine integers are modelled as
`Nat`/`Int` with explicit reduction modulo `2 ^ 32` / `2 ^ 64` where the C++
code converts or can overflow.  Vertex float data is carried opaquely as bit
patterns (the host never performs arithmetic on it).
-/

namespace PathTracer

/-- `static const uint64_t render_width = 800;` (main.cpp line 35). -/
def render_width : Nat := 800

/-- `static const uint64_t render_height = 600;` (main.cpp line 36). -/
def render_height : Nat := 600

/-- `static const uint32_t workgroup_width = 16;` (main.cpp line 37). -/
def workgroup_width : Nat := 16

/-- `static const uint32_t workgroup_height = 8;` (main.cpp line 38). -/
def workgroup_height : Nat := 8

/-- Vulkan flag values used by the program, as in `vulkan_core.h`. -/
def VK_BUFFER_USAGE_TRANSFER_DST_BIT : Nat := 2

def VK_BUFFER_USAGE_STORAGE_BUFFER_BIT : Nat := 32

def VK_BUFFER_USAGE_SHADER_DEVICE_ADDRESS_BIT : Nat := 131072

def VK_BUFFER_USAGE_AS_BUILD_INPUT_READ_ONLY_BIT_KHR : Nat := 524288

def VK_SHADER_STAGE_COMPUTE_BIT : Nat := 32

def VK_PIPELINE_STAGE_COMPUTE_SHADER_BIT : Nat := 2048

def VK_PIPELINE_STAGE_HOST_BIT : Nat := 16384

def VK_ACCESS_SHADER_WRITE_BIT : Nat := 64

def VK_ACCESS_HOST_READ_BIT : Nat := 8192

def VK_GEOMETRY_OPAQUE_BIT_KHR : Nat := 1

def VK_GEOMETRY_INSTANCE_TRIANGLE_FACING_CULL_DISABLE_BIT_KHR : Nat := 2

def VK_BUILD_AS_PREFER_FAST_TRACE_BIT_KHR : Nat := 1

def VK_FORMAT_R32G32B32_SFLOAT : Nat := 106

def VK_INDEX_TYPE_UINT32 : Nat := 1

/-- Usage flags of the output buffer (main.cpp line 124). -/
def outputBufferUsage : Nat :=
  VK_BUFFER_USAGE_STORAGE_BUFFER_BIT ||| VK_BUFFER_USAGE_TRANSFER_DST_BIT

/-- Usage flags of the vertex/index buffers (main.cpp lines 182-183). -/
def geometryBufferUsage : Nat :=
  VK_BUFFER_USAGE_SHADER_DEVICE_ADDRESS_BIT ||| VK_BUFFER_USAGE_STORAGE_BUFFER_BIT |||
    VK_BUFFER_USAGE_AS_BUILD_INPUT_READ_ONLY_BIT_KHR

/-- `bufferSizeBytes = render_width * render_height * 3 * sizeof(float)`
(main.cpp line 121); `sizeof(float) = 4`. -/
def bufferSizeBytes : Nat := render_width * render_height * 3 * 4

/-- Conversion of a C++ `int` to `uint32_t`: reduction modulo `2 ^ 32`. -/
def uint32OfInt (i : Int) : Nat := (i % (2 ^ 32 : Int)).toNat

/-- One element of `tinyobj::shape_t::mesh.indices`; only the `vertex_index`
field (a C++ `int`) is read by the program. -/
structure ObjIndex where
  vertex_index : Int
  deriving DecidableEq

/-- The part of `tinyobj::shape_t` the program reads. -/
structure ObjShape where
  indices : List ObjIndex
  deriving DecidableEq

/-- The part of `tinyobj::ObjReader` state the program reads after
`ParseFromFile`: validity, the flat vertex float array (carried as opaque
bit patterns), and the shape list. -/
structure ObjReaderResult where
  valid : Bool
  vertices : List Nat
  shapes : List ObjShape
  deriving DecidableEq

/-- Opaque per-run device-side values: buffer device addresses, the address
of a built BLAS by list position, and the TLAS handle. -/
structure DeviceEnv where
  vertexBufferAddress : Nat
  indexBufferAddress : Nat
  blasAddress : Nat → Nat
  tlasHandle : Nat

/-- The loop at main.cpp lines 154-157: each `vertex_index` is pushed into a
`std::vector<uint32_t>`, converting `int` to `uint32_t`. -/
def objIndicesOf (shape : ObjShape) : List Nat :=
  shape.indices.map fun idx => uint32OfInt idx.vertex_index

/-- `static_cast<uint32_t>(objIndices.size() / 3)` (main.cpp line 221). -/
def primitiveCountOf (numIndices : Nat) : Nat := (numIndices / 3) % 2 ^ 32

/-- `static_cast<uint32_t>(objVertices.size() / 3 - 1)` (main.cpp line 207):
the subtraction happens in `size_t` (wraps modulo `2 ^ 64`), then the value
is truncated to `uint32_t`. -/
def maxVertexOf (numFloats : Nat) : Nat :=
  ((numFloats / 3 + (2 ^ 64 - 1)) % 2 ^ 64) % 2 ^ 32

/-- The identifiers of the three buffers the program creates. -/
inductive BufferId
  | output
  | vertex
  | index
  deriving DecidableEq

/-- A descriptor byte range: an explicit byte count or `VK_WHOLE_SIZE`. -/
inductive RangeSpec
  | bytes (n : Nat)
  | wholeSize
  deriving DecidableEq

/-- The descriptor types the layout uses. -/
inductive DescriptorType
  | storageBuffer
  | accelerationStructure
  deriving DecidableEq

/-- The payload of one `VkWriteDescriptorSet`: either a
`VkDescriptorBufferInfo` or a `VkWriteDescriptorSetAccelerationStructureKHR`. -/
inductive WriteInfo
  | bufferInfo (buf : BufferId) (range : RangeSpec)
  | accelInfo (count : Nat) (tlas : Nat)
  deriving DecidableEq

/-- One `VkWriteDescriptorSet` as produced by `descriptorSetContainer.makeWrite`. -/
structure WriteDescriptorSet where
  setIdx : Nat
  binding : Nat
  info : WriteInfo
  deriving DecidableEq

/-- `VkAccelerationStructureGeometryTrianglesDataKHR` (main.cpp lines 202-211). -/
structure TrianglesData where
  vertexFormat : Nat
  vertexAddress : Nat
  vertexStride : Nat
  maxVertex : Nat
  indexType : Nat
  indexAddress : Nat
  transformAddress : Nat
  deriving DecidableEq

/-- `VkAccelerationStructureBuildRangeInfoKHR` (main.cpp lines 220-225). -/
structure RangeInfo where
  primitiveCount : Nat
  primitiveOffset : Nat
  firstVertex : Nat
  transformOffset : Nat
  deriving DecidableEq

/-- One `nvvk::RaytracingBuilderKHR::BlasInput` with its single triangle
geometry and build range (main.cpp lines 197-227). -/
structure BlasInput where
  triangles : TrianglesData
  geomFlags : Nat
  range : RangeInfo
  deriving DecidableEq

/-- `VkAccelerationStructureInstanceKHR` (main.cpp lines 237-246).  The 3x4
transform is carried as exact values (`{}`-zero-initialisation then three
diagonal writes of `1.0f`; no float arithmetic occurs). -/
structure InstanceDesc where
  blasRef : Nat
  transform : List (List Int)
  customIndex : Nat
  sbtOffset : Nat
  mask : Nat
  flags : Nat
  deriving DecidableEq

/-- A command recorded into the dispatch command buffer. -/
inductive Cmd
  | bindPipeline
  | bindDescriptorSets
  | dispatch (x y z : Nat)
  | pipelineBarrier (srcStage dstStage srcAccess dstAccess barrierCount : Nat)
  deriving DecidableEq

/-- An externally visible action of the host program, in program order. -/
inductive Event
  | createBuffer (id : BufferId) (size : Nat) (usage : Nat)
  | assertCheck (ok : Bool)
  | fatalAbort
  | createCommandPool
  | uploadBuffer (id : BufferId) (data : List Nat) (usage : Nat)
  | submitWait
  | buildBlas (inputs : List BlasInput) (flags : Nat)
  | buildTlas (instances : List InstanceDesc) (flags : Nat)
  | addBinding (binding : Nat) (ty : DescriptorType) (count : Nat) (stages : Nat)
  | initPool (maxSets : Nat)
  | updateDescriptorSets (writes : List WriteDescriptorSet)
  | createComputePipeline
  | cmd (c : Cmd)
  | mapBuffer (id : BufferId)
  | writeHdr (w h comp : Nat)
  | unmapBuffer (id : BufferId)
  deriving DecidableEq

/-- The BLAS description the program builds (main.cpp lines 197-227). -/
def blasInputOf (env : DeviceEnv) (r : ObjReaderResult) (objIndices : List Nat) : BlasInput :=
  { triangles :=
      { vertexFormat := VK_FORMAT_R32G32B32_SFLOAT
        vertexAddress := env.vertexBufferAddress
        vertexStride := 3 * 4
        maxVertex := maxVertexOf r.vertices.length
        indexType := VK_INDEX_TYPE_UINT32
        indexAddress := env.indexBufferAddress
        transformAddress := 0 }
    geomFlags := VK_GEOMETRY_OPAQUE_BIT_KHR
    range :=
      { primitiveCount := primitiveCountOf objIndices.length
        primitiveOffset := 0
        firstVertex := 0
        transformOffset := 0 } }

/-- The single TLAS instance the program constructs (main.cpp lines 237-246). -/
def theInstance (env : DeviceEnv) : InstanceDesc :=
  { blasRef := env.blasAddress 0
    transform := [[1, 0, 0, 0], [0, 1, 0, 0], [0, 0, 1, 0]]
    customIndex := 0
    sbtOffset := 0
    mask := 255
    flags := VK_GEOMETRY_INSTANCE_TRIANGLE_FACING_CULL_DISABLE_BIT_KHR }

/-- The four descriptor writes (main.cpp lines 276-292). -/
def writeDescriptorSets (env : DeviceEnv) : List WriteDescriptorSet :=
  [⟨0, 0, .bufferInfo .output (.bytes bufferSizeBytes)⟩,
   ⟨0, 1, .accelInfo 1 env.tlasHandle⟩,
   ⟨0, 2, .bufferInfo .vertex .wholeSize⟩,
   ⟨0, 3, .bufferInfo .index .wholeSize⟩]

/-- Events of `main` after both assertions hold and the single shape has been
extracted (main.cpp lines 164-385). -/
def tailTrace (env : DeviceEnv) (r : ObjReaderResult) (shape : ObjShape) : List Event :=
  [Event.createCommandPool,
   Event.uploadBuffer .vertex r.vertices geometryBufferUsage,
   Event.uploadBuffer .index (objIndicesOf shape) geometryBufferUsage,
   Event.submitWait,
   Event.buildBlas [blasInputOf env r (objIndicesOf shape)] VK_BUILD_AS_PREFER_FAST_TRACE_BIT_KHR,
   Event.buildTlas [theInstance env] VK_BUILD_AS_PREFER_FAST_TRACE_BIT_KHR,
   Event.addBinding 0 .storageBuffer 1 VK_SHADER_STAGE_COMPUTE_BIT,
   Event.addBinding 1 .accelerationStructure 1 VK_SHADER_STAGE_COMPUTE_BIT,
   Event.addBinding 2 .storageBuffer 1 VK_SHADER_STAGE_COMPUTE_BIT,
   Event.addBinding 3 .storageBuffer 1 VK_SHADER_STAGE_COMPUTE_BIT,
   Event.initPool 1,
   Event.updateDescriptorSets (writeDescriptorSets env),
   Event.createComputePipeline,
   Event.cmd .bindPipeline,
   Event.cmd .bindDescriptorSets,
   Event.cmd (.dispatch ((render_width + workgroup_width - 1) / workgroup_width)
     ((render_height + workgroup_height - 1) / workgroup_height) 1),
   Event.cmd (.pipelineBarrier VK_PIPELINE_STAGE_COMPUTE_SHADER_BIT VK_PIPELINE_STAGE_HOST_BIT
     VK_ACCESS_SHADER_WRITE_BIT VK_ACCESS_HOST_READ_BIT 1),
   Event.submitWait,
   Event.mapBuffer .output,
   Event.writeHdr render_width render_height 3,
   Event.unmapBuffer .output]

/-- The full event trace of `main` (main.cpp lines 87-403): the output buffer
is created, then the OBJ file is parsed and the two assertions run (a failed
`assert` aborts the process), then the upload, the two builds, the descriptor
work, the recorded dispatch command buffer, the submit-and-wait, and the
readback. -/
def mainTrace (env : DeviceEnv) (r : ObjReaderResult) : List Event :=
  Event.createBuffer .output bufferSizeBytes outputBufferUsage ::
    Event.assertCheck r.valid ::
      if r.valid then
        Event.assertCheck (r.shapes.length == 1) ::
          match r.shapes with
          | [shape] => tailTrace env r shape
          | _ => [Event.fatalAbort]
      else [Event.fatalAbort]

/-- Whether an event is one of the two `assert` checks. -/
def isAssertEvent : Event → Bool
  | .assertCheck _ => true
  | _ => false

/-- Whether an event creates a device resource (any buffer allocation or
acceleration-structure build). -/
def isDeviceResourceEvent : Event → Bool
  | .createBuffer _ _ _ => true
  | .uploadBuffer _ _ _ => true
  | .buildBlas _ _ => true
  | .buildTlas _ _ => true
  | _ => false

/-- Whether an event is a geometry upload or an acceleration-structure build
(the device resources created after the OBJ file is parsed). -/
def isUploadOrBuildEvent : Event → Bool
  | .uploadBuffer _ _ _ => true
  | .buildBlas _ _ => true
  | .buildTlas _ _ => true
  | _ => false

/-- Every event satisfying `isAssertEvent` occurs before every event
satisfying `res`: after the first `res` event, no assert event appears. -/
def assertsPrecede (res : Event → Bool) (t : List Event) : Bool :=
  (t.dropWhile fun e => ! res e).all fun e => ! isAssertEvent e

/-- Whether the trace contains a bottom-level acceleration-structure build. -/
def hasBlasBuild (t : List Event) : Bool :=
  t.any fun e =>
    match e with
    | .buildBlas _ _ => true
    | _ => false

/-- The concatenated contents of all index-buffer uploads in a trace. -/
def uploadedIndexData (t : List Event) : List Nat :=
  t.foldr
    (fun e acc =>
      match e with
      | .uploadBuffer .index d _ => d ++ acc
      | _ => acc)
    []

/-- Whether a recorded command is the pipeline barrier. -/
def isBarrierCmd : Event → Bool
  | .cmd (.pipelineBarrier _ _ _ _ _) => true
  | _ => false

/-- Whether an event is an `addBinding` layout declaration. -/
def isBindingDecl : Event → Bool
  | .addBinding _ _ _ _ => true
  | _ => false

/-- Whether an event is the descriptor-pool initialisation. -/
def isPoolInit : Event → Bool
  | .initPool _ => true
  | _ => false

/-- Whether an event is the `vkUpdateDescriptorSets` call. -/
def isDescriptorUpdate : Event → Bool
  | .updateDescriptorSets _ => true
  | _ => false

/-- Zero the BLAS input's device-address fields. -/
def scrubBlasInput (b : BlasInput) : BlasInput :=
  { b with triangles := { b.triangles with vertexAddress := 0, indexAddress := 0 } }

/-- Zero the instance's BLAS device address. -/
def scrubInstance (i : InstanceDesc) : InstanceDesc :=
  { i with blasRef := 0 }

/-- Zero the TLAS handle in an acceleration-structure descriptor write. -/
def scrubWrite (w : WriteDescriptorSet) : WriteDescriptorSet :=
  match w.info with
  | .accelInfo c _ => { w with info := .accelInfo c 0 }
  | _ => w

/-- Zero every opaque device address / handle in one event. -/
def scrubEvent : Event → Event
  | .buildBlas inputs f => .buildBlas (inputs.map scrubBlasInput) f
  | .buildTlas insts f => .buildTlas (insts.map scrubInstance) f
  | .updateDescriptorSets ws => .updateDescriptorSets (ws.map scrubWrite)
  | e => e

/-- Zero every opaque device address / handle in a trace, leaving every value
the host itself computed. -/
def scrubAddresses (t : List Event) : List Event := t.map scrubEvent

/-- A well-formed two-triangle sample mesh: 4 vertices (12 floats), indices
0 1 2 and 0 2 3. -/
def sampleShape : ObjShape :=
  ⟨[⟨0⟩, ⟨1⟩, ⟨2⟩, ⟨0⟩, ⟨2⟩, ⟨3⟩]⟩

/-- A valid reader result holding exactly `sampleShape`. -/
def sampleReader : ObjReaderResult :=
  ⟨true, List.replicate 12 0, [sampleShape]⟩

/-- A sample mesh with 1 vertex (3 floats) whose third index, 5, is out of
range. -/
def badShape : ObjShape :=
  ⟨[⟨0⟩, ⟨0⟩, ⟨5⟩]⟩

/-- A valid reader result holding exactly `badShape`. -/
def badReader : ObjReaderResult :=
  ⟨true, [0, 0, 0], [badShape]⟩

/-- A sample mesh with 3 vertices (9 floats) containing the negative OBJ
relative index -1. -/
def negShape : ObjShape :=
  ⟨[⟨0⟩, ⟨1⟩, ⟨-1⟩]⟩

/-- A valid reader result holding exactly `negShape`. -/
def negReader : ObjReaderResult :=
  ⟨true, List.replicate 9 0, [negShape]⟩

/-- Concrete opaque device-side values for witness instantiations. -/
def sampleEnv : DeviceEnv :=
  ⟨4096, 8192, fun _ => 12288, 7⟩

/-- When the reader is valid and holds exactly one shape, both assertions
pass and the trace is the output-buffer creation, the two checks, then
`tailTrace`. -/
theorem mainTrace_eq_of_valid (env : DeviceEnv) (r : ObjReaderResult) (shape : ObjShape)
    (hv : r.valid = true) (hs : r.shapes = [shape]) :
    mainTrace env r =
      Event.createBuffer .output bufferSizeBytes outputBufferUsage ::
        Event.assertCheck true :: Event.assertCheck true :: tailTrace env r shape := by
  unfold mainTrace
  rw [hv, hs]
  simp

/-- C1: the claim that an out-of-range index is fatally rejected before any
bottom-level build fails on the code: for a mesh with 1 vertex and an index 5,
the build is still issued with the out-of-range index uploaded. -/
theorem c1_range_check_counterexample :
    ¬ (hasBlasBuild (mainTrace sampleEnv badReader) = true →
        ∀ i ∈ uploadedIndexData (mainTrace sampleEnv badReader),
          i < badReader.vertices.length / 3) := by
  intro h
  exact absurd (h (by decide) 5 (by decide)) (by decide)

/-- C1 (amended): the program performs no index-range validation at all: for
every valid single-shape input, the bottom-level build is issued and no fatal
abort occurs, with the index data uploaded exactly as converted from the OBJ
reader, whatever its values. -/
theorem c1_no_index_validation (env : DeviceEnv) (r : ObjReaderResult) (shape : ObjShape)
    (hv : r.valid = true) (hs : r.shapes = [shape]) :
    hasBlasBuild (mainTrace env r) = true ∧
    Event.fatalAbort ∉ mainTrace env r ∧
    uploadedIndexData (mainTrace env r) = objIndicesOf shape := by
  rw [mainTrace_eq_of_valid env r shape hv hs]
  refine ⟨rfl, ?_, ?_⟩
  · simp [tailTrace]
  · simp [uploadedIndexData, tailTrace]

/-- C1 witness: the amended statement at the concrete out-of-range mesh. -/
theorem c1_no_index_validation_witness :
    hasBlasBuild (mainTrace sampleEnv badReader) = true ∧
    Event.fatalAbort ∉ mainTrace sampleEnv badReader ∧
    uploadedIndexData (mainTrace sampleEnv badReader) = objIndicesOf badShape :=
  c1_no_index_validation sampleEnv badReader badShape rfl rfl

/-- C2: the claim that both assertions precede every device-resource creation
fails on the code: the output buffer is created (main.cpp line 129) before the
OBJ file is parsed and the assertions run (main.cpp lines 144, 149). -/
theorem c2_eager_validation_counterexample :
    assertsPrecede isDeviceResourceEvent (mainTrace sampleEnv sampleReader) = false := by
  decide

/-- C2 (amended): both assertions precede every geometry upload and every
acceleration-structure build; only the output-buffer allocation precedes
them. -/
theorem c2_asserts_before_uploads_and_builds (env : DeviceEnv) (r : ObjReaderResult) :
    assertsPrecede isUploadOrBuildEvent (mainTrace env r) = true := by
  obtain ⟨v, verts, shapes⟩ := r
  cases v
  · rfl
  · rcases shapes with _ | ⟨s, _ | ⟨s2, rest⟩⟩
    · rfl
    · rfl
    · rfl

/-- C3: the bottom-level build request issued by the program carries
`primitiveCount = L / 3` (`L` the flat index array length) and
`maxVertex = M - 1` (`M` the vertex count, the flat float array having length
`3 * M`). -/
theorem c3_blas_counts (env : DeviceEnv) (r : ObjReaderResult) (shape : ObjShape) (M : Nat)
    (hv : r.valid = true) (hs : r.shapes = [shape])
    (hM : r.vertices.length = 3 * M) (h1 : 0 < M) (h2 : M ≤ 2 ^ 32)
    (hL : (objIndicesOf shape).length / 3 < 2 ^ 32) :
    Event.buildBlas [blasInputOf env r (objIndicesOf shape)] VK_BUILD_AS_PREFER_FAST_TRACE_BIT_KHR
      ∈ mainTrace env r ∧
    (blasInputOf env r (objIndicesOf shape)).range.primitiveCount =
      (objIndicesOf shape).length / 3 ∧
    (blasInputOf env r (objIndicesOf shape)).triangles.maxVertex = M - 1 := by
  refine ⟨?_, ?_, ?_⟩
  · rw [mainTrace_eq_of_valid env r shape hv hs]
    simp [tailTrace]
  · show primitiveCountOf (objIndicesOf shape).length = (objIndicesOf shape).length / 3
    unfold primitiveCountOf
    omega
  · show maxVertexOf r.vertices.length = M - 1
    rw [hM]
    unfold maxVertexOf
    omega

/-- C3 witness: the two-triangle sample mesh with 4 vertices yields
`primitiveCount = 2` and `maxVertex = 3`. -/
theorem c3_blas_counts_witness :
    Event.buildBlas [blasInputOf sampleEnv sampleReader (objIndicesOf sampleShape)]
        VK_BUILD_AS_PREFER_FAST_TRACE_BIT_KHR ∈ mainTrace sampleEnv sampleReader ∧
    (blasInputOf sampleEnv sampleReader (objIndicesOf sampleShape)).range.primitiveCount =
      (objIndicesOf sampleShape).length / 3 ∧
    (blasInputOf sampleEnv sampleReader (objIndicesOf sampleShape)).triangles.maxVertex = 4 - 1 :=
  c3_blas_counts sampleEnv sampleReader sampleShape 4 rfl rfl (by decide) (by decide) (by decide)
    (by decide)

/-- C4: the dispatch command buffer records, in order, the pipeline bind, the
descriptor-set bind, the dispatch, and exactly one global memory barrier from
the compute-shader stage (shader-write access) to the host stage (host-read
access); only then is the buffer submitted with a blocking wait for queue
idle, after which the host maps and reads the output buffer. -/
theorem c4_dispatch_sequence (env : DeviceEnv) (r : ObjReaderResult) (shape : ObjShape)
    (hv : r.valid = true) (hs : r.shapes = [shape]) :
    (∃ pre, mainTrace env r = pre ++
      [Event.cmd .bindPipeline,
       Event.cmd .bindDescriptorSets,
       Event.cmd (.dispatch 50 75 1),
       Event.cmd (.pipelineBarrier VK_PIPELINE_STAGE_COMPUTE_SHADER_BIT VK_PIPELINE_STAGE_HOST_BIT
         VK_ACCESS_SHADER_WRITE_BIT VK_ACCESS_HOST_READ_BIT 1),
       Event.submitWait,
       Event.mapBuffer .output,
       Event.writeHdr render_width render_height 3,
       Event.unmapBuffer .output]) ∧
    (mainTrace env r).countP isBarrierCmd = 1 := by
  rw [mainTrace_eq_of_valid env r shape hv hs]
  constructor
  · exact ⟨[Event.createBuffer .output bufferSizeBytes outputBufferUsage,
      Event.assertCheck true, Event.assertCheck true,
      Event.createCommandPool,
      Event.uploadBuffer .vertex r.vertices geometryBufferUsage,
      Event.uploadBuffer .index (objIndicesOf shape) geometryBufferUsage,
      Event.submitWait,
      Event.buildBlas [blasInputOf env r (objIndicesOf shape)]
        VK_BUILD_AS_PREFER_FAST_TRACE_BIT_KHR,
      Event.buildTlas [theInstance env] VK_BUILD_AS_PREFER_FAST_TRACE_BIT_KHR,
      Event.addBinding 0 .storageBuffer 1 VK_SHADER_STAGE_COMPUTE_BIT,
      Event.addBinding 1 .accelerationStructure 1 VK_SHADER_STAGE_COMPUTE_BIT,
      Event.addBinding 2 .storageBuffer 1 VK_SHADER_STAGE_COMPUTE_BIT,
      Event.addBinding 3 .storageBuffer 1 VK_SHADER_STAGE_COMPUTE_BIT,
      Event.initPool 1,
      Event.updateDescriptorSets (writeDescriptorSets env),
      Event.createComputePipeline], rfl⟩
  · rfl

/-- C4 witness: the command sequence at the concrete sample run. -/
theorem c4_dispatch_sequence_witness :
    (∃ pre, mainTrace sampleEnv sampleReader = pre ++
      [Event.cmd .bindPipeline,
       Event.cmd .bindDescriptorSets,
       Event.cmd (.dispatch 50 75 1),
       Event.cmd (.pipelineBarrier VK_PIPELINE_STAGE_COMPUTE_SHADER_BIT VK_PIPELINE_STAGE_HOST_BIT
         VK_ACCESS_SHADER_WRITE_BIT VK_ACCESS_HOST_READ_BIT 1),
       Event.submitWait,
       Event.mapBuffer .output,
       Event.writeHdr render_width render_height 3,
       Event.unmapBuffer .output]) ∧
    (mainTrace sampleEnv sampleReader).countP isBarrierCmd = 1 :=
  c4_dispatch_sequence sampleEnv sampleReader sampleShape rfl rfl

/-- C5: the layout declares exactly four bindings in one set, all compute-only,
with slot 0 a storage buffer, slot 1 an acceleration structure, slots 2 and 3
storage buffers; exactly one pool of one set is initialised; and the single
descriptor update writes the output buffer with its full byte range, the TLAS
through the acceleration-structure write structure, and the vertex/index
buffers with whole-size range. -/
theorem c5_descriptor_contract (env : DeviceEnv) (r : ObjReaderResult) (shape : ObjShape)
    (hv : r.valid = true) (hs : r.shapes = [shape]) :
    (mainTrace env r).filter isBindingDecl =
      [Event.addBinding 0 .storageBuffer 1 VK_SHADER_STAGE_COMPUTE_BIT,
       Event.addBinding 1 .accelerationStructure 1 VK_SHADER_STAGE_COMPUTE_BIT,
       Event.addBinding 2 .storageBuffer 1 VK_SHADER_STAGE_COMPUTE_BIT,
       Event.addBinding 3 .storageBuffer 1 VK_SHADER_STAGE_COMPUTE_BIT] ∧
    (mainTrace env r).filter isPoolInit = [Event.initPool 1] ∧
    (mainTrace env r).filter isDescriptorUpdate =
      [Event.updateDescriptorSets (writeDescriptorSets env)] ∧
    writeDescriptorSets env =
      [⟨0, 0, .bufferInfo .output (.bytes bufferSizeBytes)⟩,
       ⟨0, 1, .accelInfo 1 env.tlasHandle⟩,
       ⟨0, 2, .bufferInfo .vertex .wholeSize⟩,
       ⟨0, 3, .bufferInfo .index .wholeSize⟩] := by
  rw [mainTrace_eq_of_valid env r shape hv hs]
  exact ⟨rfl, rfl, rfl, rfl⟩

/-- C5 witness: the descriptor contract at the concrete sample run. -/
theorem c5_descriptor_contract_witness :
    (mainTrace sampleEnv sampleReader).filter isBindingDecl =
      [Event.addBinding 0 .storageBuffer 1 VK_SHADER_STAGE_COMPUTE_BIT,
       Event.addBinding 1 .accelerationStructure 1 VK_SHADER_STAGE_COMPUTE_BIT,
       Event.addBinding 2 .storageBuffer 1 VK_SHADER_STAGE_COMPUTE_BIT,
       Event.addBinding 3 .storageBuffer 1 VK_SHADER_STAGE_COMPUTE_BIT] ∧
    (mainTrace sampleEnv sampleReader).filter isPoolInit = [Event.initPool 1] ∧
    (mainTrace sampleEnv sampleReader).filter isDescriptorUpdate =
      [Event.updateDescriptorSets (writeDescriptorSets sampleEnv)] ∧
    writeDescriptorSets sampleEnv =
      [⟨0, 0, .bufferInfo .output (.bytes bufferSizeBytes)⟩,
       ⟨0, 1, .accelInfo 1 sampleEnv.tlasHandle⟩,
       ⟨0, 2, .bufferInfo .vertex .wholeSize⟩,
       ⟨0, 3, .bufferInfo .index .wholeSize⟩] :=
  c5_descriptor_contract sampleEnv sampleReader sampleShape rfl rfl

/-- C6: the output buffer is created first with byte size
`render_width * render_height * 3 * 4 = 5760000` (width 800, height 600,
three 32-bit floats per pixel), and the image handed to the encoder is
800 x 600 with 3 channels. -/
theorem c6_output_buffer_size (env : DeviceEnv) (r : ObjReaderResult) (shape : ObjShape)
    (hv : r.valid = true) (hs : r.shapes = [shape]) :
    render_width = 800 ∧ render_height = 600 ∧
    bufferSizeBytes = render_width * render_height * 3 * 4 ∧
    bufferSizeBytes = 5760000 ∧
    (mainTrace env r).head? =
      some (Event.createBuffer .output bufferSizeBytes outputBufferUsage) ∧
    Event.writeHdr render_width render_height 3 ∈ mainTrace env r := by
  rw [mainTrace_eq_of_valid env r shape hv hs]
  refine ⟨rfl, rfl, rfl, by decide, rfl, ?_⟩
  simp [tailTrace]

/-- C6 witness: the output-buffer size property at the concrete sample run. -/
theorem c6_output_buffer_size_witness :
    render_width = 800 ∧ render_height = 600 ∧
    bufferSizeBytes = render_width * render_height * 3 * 4 ∧
    bufferSizeBytes = 5760000 ∧
    (mainTrace sampleEnv sampleReader).head? =
      some (Event.createBuffer .output bufferSizeBytes outputBufferUsage) ∧
    Event.writeHdr render_width render_height 3 ∈ mainTrace sampleEnv sampleReader :=
  c6_output_buffer_size sampleEnv sampleReader sampleShape rfl rfl

/-- C7: the dispatch issues exactly
`(render_width + workgroup_width - 1) / workgroup_width = 50` by
`(render_height + workgroup_height - 1) / workgroup_height = 75` by 1
work-groups (integer ceiling division), and the grid covers at least
`render_width x render_height` invocations. -/
theorem c7_dispatch_grid (env : DeviceEnv) (r : ObjReaderResult) (shape : ObjShape)
    (hv : r.valid = true) (hs : r.shapes = [shape]) :
    Event.cmd (.dispatch ((render_width + workgroup_width - 1) / workgroup_width)
      ((render_height + workgroup_height - 1) / workgroup_height) 1) ∈ mainTrace env r ∧
    (render_width + workgroup_width - 1) / workgroup_width = 50 ∧
    (render_height + workgroup_height - 1) / workgroup_height = 75 ∧
    render_width ≤ 50 * workgroup_width ∧
    render_height ≤ 75 * workgroup_height := by
  rw [mainTrace_eq_of_valid env r shape hv hs]
  refine ⟨?_, by decide, by decide, by decide, by decide⟩
  simp [tailTrace]

/-- C7 witness: the dispatch grid property at the concrete sample run. -/
theorem c7_dispatch_grid_witness :
    Event.cmd (.dispatch ((render_width + workgroup_width - 1) / workgroup_width)
      ((render_height + workgroup_height - 1) / workgroup_height) 1)
      ∈ mainTrace sampleEnv sampleReader ∧
    (render_width + workgroup_width - 1) / workgroup_width = 50 ∧
    (render_height + workgroup_height - 1) / workgroup_height = 75 ∧
    render_width ≤ 50 * workgroup_width ∧
    render_height ≤ 75 * workgroup_height :=
  c7_dispatch_grid sampleEnv sampleReader sampleShape rfl rfl

/-- C8: the top-level build receives exactly one instance, built immediately
after the bottom-level build, referencing the device address of BLAS 0,
carrying the identity 3x4 transform, custom index 0, shader-binding-table
record offset 0, visibility mask 0xFF (all 8 bits set), and the
triangle-facing-cull-disable flag. -/
theorem c8_instance_descriptor (env : DeviceEnv) (r : ObjReaderResult) (shape : ObjShape)
    (hv : r.valid = true) (hs : r.shapes = [shape]) :
    (∃ pre rest, mainTrace env r = pre ++
      Event.buildBlas [blasInputOf env r (objIndicesOf shape)]
        VK_BUILD_AS_PREFER_FAST_TRACE_BIT_KHR ::
      Event.buildTlas [theInstance env] VK_BUILD_AS_PREFER_FAST_TRACE_BIT_KHR :: rest) ∧
    (theInstance env).blasRef = env.blasAddress 0 ∧
    (theInstance env).transform = [[1, 0, 0, 0], [0, 1, 0, 0], [0, 0, 1, 0]] ∧
    (theInstance env).customIndex = 0 ∧
    (theInstance env).sbtOffset = 0 ∧
    (theInstance env).mask = 255 ∧
    (∀ k, k < 8 → Nat.testBit (theInstance env).mask k = true) ∧
    (theInstance env).flags = VK_GEOMETRY_INSTANCE_TRIANGLE_FACING_CULL_DISABLE_BIT_KHR := by
  rw [mainTrace_eq_of_valid env r shape hv hs]
  have hbits : ∀ k, k < 8 → Nat.testBit (theInstance env).mask k = true := by
    show ∀ k, k < 8 → Nat.testBit 255 k = true
    decide
  refine ⟨?_, rfl, rfl, rfl, rfl, rfl, hbits, rfl⟩
  exact ⟨[Event.createBuffer .output bufferSizeBytes outputBufferUsage,
      Event.assertCheck true, Event.assertCheck true,
      Event.createCommandPool,
      Event.uploadBuffer .vertex r.vertices geometryBufferUsage,
      Event.uploadBuffer .index (objIndicesOf shape) geometryBufferUsage,
      Event.submitWait],
    [Event.addBinding 0 .storageBuffer 1 VK_SHADER_STAGE_COMPUTE_BIT,
      Event.addBinding 1 .accelerationStructure 1 VK_SHADER_STAGE_COMPUTE_BIT,
      Event.addBinding 2 .storageBuffer 1 VK_SHADER_STAGE_COMPUTE_BIT,
      Event.addBinding 3 .storageBuffer 1 VK_SHADER_STAGE_COMPUTE_BIT,
      Event.initPool 1,
      Event.updateDescriptorSets (writeDescriptorSets env),
      Event.createComputePipeline,
      Event.cmd .bindPipeline,
      Event.cmd .bindDescriptorSets,
      Event.cmd (.dispatch 50 75 1),
      Event.cmd (.pipelineBarrier VK_PIPELINE_STAGE_COMPUTE_SHADER_BIT VK_PIPELINE_STAGE_HOST_BIT
        VK_ACCESS_SHADER_WRITE_BIT VK_ACCESS_HOST_READ_BIT 1),
      Event.submitWait,
      Event.mapBuffer .output,
      Event.writeHdr render_width render_height 3,
      Event.unmapBuffer .output], rfl⟩

/-- C8 witness: the instance descriptor at the concrete sample run. -/
theorem c8_instance_descriptor_witness :
    (∃ pre rest, mainTrace sampleEnv sampleReader = pre ++
      Event.buildBlas [blasInputOf sampleEnv sampleReader (objIndicesOf sampleShape)]
        VK_BUILD_AS_PREFER_FAST_TRACE_BIT_KHR ::
      Event.buildTlas [theInstance sampleEnv] VK_BUILD_AS_PREFER_FAST_TRACE_BIT_KHR :: rest) ∧
    (theInstance sampleEnv).blasRef = sampleEnv.blasAddress 0 ∧
    (theInstance sampleEnv).transform = [[1, 0, 0, 0], [0, 1, 0, 0], [0, 0, 1, 0]] ∧
    (theInstance sampleEnv).customIndex = 0 ∧
    (theInstance sampleEnv).sbtOffset = 0 ∧
    (theInstance sampleEnv).mask = 255 ∧
    (∀ k, k < 8 → Nat.testBit (theInstance sampleEnv).mask k = true) ∧
    (theInstance sampleEnv).flags = VK_GEOMETRY_INSTANCE_TRIANGLE_FACING_CULL_DISABLE_BIT_KHR :=
  c8_instance_descriptor sampleEnv sampleReader sampleShape rfl rfl

/-- C9: the host-side pipeline is deterministic: for the same parsed mesh,
every value the host computes and submits is identical across runs; the only
fields that can differ are the opaque device addresses and handles the driver
hands back, and after zeroing those the traces of any two runs coincide. -/
theorem c9_host_determinism (env1 env2 : DeviceEnv) (r : ObjReaderResult) :
    scrubAddresses (mainTrace env1 r) = scrubAddresses (mainTrace env2 r) := by
  obtain ⟨v, verts, shapes⟩ := r
  cases v
  · rfl
  · rcases shapes with _ | ⟨s, _ | ⟨s2, rest⟩⟩
    · rfl
    · simp [mainTrace, tailTrace, scrubAddresses, scrubEvent, scrubBlasInput, scrubInstance,
        scrubWrite, blasInputOf, theInstance, writeDescriptorSets]
    · rfl

/-- C10: each uploaded index is the shape's `vertex_index` converted from
signed int to unsigned 32-bit (reduction mod `2 ^ 32`); for the concrete
input containing the negative OBJ relative index -1, the uploaded buffer
contains `2 ^ 32 - 1 ≥ 2 ^ 31`, the build is issued, and no error is
raised. -/
theorem c10_uint32_index_conversion :
    (∀ shape : ObjShape, objIndicesOf shape =
        shape.indices.map fun idx => (idx.vertex_index % (2 ^ 32 : Int)).toNat) ∧
    uploadedIndexData (mainTrace sampleEnv negReader) = [0, 1, 4294967295] ∧
    2 ^ 31 ≤ 4294967295 ∧
    hasBlasBuild (mainTrace sampleEnv negReader) = true ∧
    Event.fatalAbort ∉ mainTrace sampleEnv negReader :=
  ⟨fun _ => rfl, by decide, by decide, by decide, by decide⟩

end PathTracer
